import Mathlib

/-!
Verification of the conversation-state and response-normalization core of the
React code-assistant backend (FastAPI + Claude/OpenAI providers).

The definitions below are a shallow embedding of the Python source:
  * `src/latest/claude.py`  — Claude prompts, `ClaudeConversationBuffer`,
    `sort_modifications`, `remove_old_content`;
  * `src/openai_backend.py` — OpenAI prompts, `OpenAIConversationBuffer`, and
    byte-identical copies of `sort_modifications` / `remove_old_content`;
  * `src/latest/app.py`     — `TokenUsage` normalization and the
    `process_chat_request` turn pipeline.

Python dicts decoded from model JSON are embedded as structures whose optional
keys become `Option` fields; `dict.get(k, d)` becomes `Option.getD`.  Python
lists become `List`, and the insertion-ordered `defaultdict(list)` of
`sort_modifications` is embedded as an association list to which `addMod`
appends exactly the way `file_modifications[file_path].append(mod)` does.
-/

namespace CodegenBackend

/-! ### Line-based modifications (claude.py lines 370-399, openai_backend.py 409-438) -/

/-- One line-based edit, as decoded from the model's `code_changes` JSON.
Keys that the backend reads optionally (`mod.get('start_line', 0)`,
`mod.pop('old_content', None)`) are `Option` fields. -/
structure Modification where
  operation : String
  start_line : Option Int := none
  end_line : Option Int := none
  new_content : Option String := none
  old_content : Option String := none
deriving DecidableEq, Repr

/-- One per-file entry of the `changes` list: `change.get('file', '')` and
`change.get('modifications', [])` collapse missing keys into the defaults. -/
structure Change where
  file : String
  modifications : List Modification
deriving DecidableEq, Repr

/-- The sort key used by `sorted(mods, key=lambda x: x.get('start_line', 0), reverse=True)`. -/
def modKey (m : Modification) : Int :=
  m.start_line.getD 0

/-- Descending-by-`start_line` comparison; `reverse=True` of a stable ascending
sort is exactly a stable sort by this relation. -/
def modGE (a b : Modification) : Prop :=
  modKey b ≤ modKey a

instance : DecidableRel modGE :=
  fun a b => inferInstanceAs (Decidable (modKey b ≤ modKey a))

instance : IsTotal Modification modGE :=
  ⟨fun a b => le_total (modKey b) (modKey a)⟩

instance : IsTrans Modification modGE :=
  ⟨fun _ _ _ h1 h2 => le_trans h2 h1⟩

/-- `file_modifications[file_path].append(mod)` on the insertion-ordered
`defaultdict(list)`: append to the existing entry, or create a new entry at the
end (Python dicts preserve key-creation order). -/
def addMod : List (String × List Modification) → String → Modification →
    List (String × List Modification)
  | [], p, m => [(p, [m])]
  | (q, ms) :: rest, p, m =>
      if q = p then (q, ms ++ [m]) :: rest else (q, ms) :: addMod rest p m

/-- The two nested loops of `sort_modifications` that fill the defaultdict.
Note that a key is created only when a modification is appended: a change entry
with an empty `modifications` list creates no key. -/
def groupChanges (changes : List Change) : List (String × List Modification) :=
  changes.foldl (fun acc c => c.modifications.foldl (fun acc2 m => addMod acc2 c.file m) acc) []

/-- `sort_modifications` (identical in claude.py and openai_backend.py): group
the flat `changes` list by file path, then sort each file's modification list
by `start_line` descending with Python's stable `sorted(..., reverse=True)`,
embedded as the stable `List.insertionSort` under `modGE`. -/
def sort_modifications (changes : List Change) : List Change :=
  (groupChanges changes).map fun pr =>
    { file := pr.1, modifications := List.insertionSort modGE pr.2 }

/-! ### Specification-side helpers used to state properties of the grouping -/

/-- The flat list of (file, modification) pairs in input order; the defaultdict
fill loop processes exactly these pairs left to right. -/
def changePairs (changes : List Change) : List (String × Modification) :=
  (changes.map (fun c => c.modifications.map (fun m => (c.file, m)))).flatten

/-- All modifications listed for path `p` across all input entries, in input
order. -/
def valsFor (p : String) (l : List (String × Modification)) : List Modification :=
  (l.filter (fun pm => pm.1 = p)).map (fun pm => pm.2)

/-- First-appearance deduplication: the key order an insertion-ordered dict
ends up with after the fill loop. -/
def firstDedup (l : List String) : List String :=
  l.foldl (fun ks p => if p ∈ ks then ks else ks ++ [p]) []

/-- Association lookup in the grouped list. -/
def lookupG : List (String × List Modification) → String → Option (List Modification)
  | [], _ => none
  | (q, ms) :: rest, p => if q = p then some ms else lookupG rest p

/-! ### Messages and content (claude.py, openai_backend.py) -/

/-- A message's `content` value: either a plain Python string or a list of
content blocks `{"type": ..., "text": ..., "cache_control": ...}`.  The block's
`text` value is whatever Python value the code put there (always a string in
this codebase), and the presence of `"cache_control": {"type": "ephemeral"}` is
recorded as the trailing boolean. -/
inductive Content where
  | str : String → Content
  | blocks : List (String × Content × Bool) → Content

/-- One conversation entry `{"role": ..., "content": ...}`. -/
structure Message where
  role : String
  content : Content

/-- True iff the stored content is a plain string (no content-block structure). -/
def isPlainText (m : Message) : Bool :=
  match m.content with
  | Content.str _ => true
  | Content.blocks _ => false

/-- True iff the message carries a cache-eligibility marker, i.e. some content
block has a `cache_control` entry. -/
def hasMarker (m : Message) : Bool :=
  match m.content with
  | Content.str _ => false
  | Content.blocks bs => bs.any fun blk => blk.2.2

/-! ### Prompt constants (claude.py lines 52-186, openai_backend.py lines 63-281) -/

def CLAUDE_GENERATION_PROMPT : String :=
  "<mode>REACT CODE GENERATION</mode>\n\n<instructions>\nYou are now in React code generation mode. Follow this process:\n\n1. ANALYZE: Understand the React requirements and plan your component structure\n2. STRUCTURE: Determine the file organization (components, hooks, utils, styles)\n3. GENERATE: Create complete React code in JSON format\n\nCRITICAL OUTPUT FORMAT:\n- Start with brief analysis (2-3 sentences explaining your approach)\n- Then output ONLY valid JSON (no markdown, no code blocks, no extra text)\n- Format: [Brief reasoning] + JSON structure\n</instructions>\n\n<json_structure>\n\x7b\n  \"type\": \"code_generation\",\n  \"changes\": [\n    \x7b\n      \"file\": \"src/components/ComponentName.jsx\",\n      \"content\": \"complete file content as a string with escaped newlines\"\n    \x7d\n  ],\n  \"summary\": \"Brief description of what was generated\"\n\x7d\n</json_structure>\n\n<react_best_practices>\n1. Use functional components with hooks (not class components)\n2. Destructure props for cleaner code\n3. Use proper TypeScript types when applicable (.tsx extension)\n4. Follow naming conventions: PascalCase for components, camelCase for functions\n5. Keep components focused and single-responsibility\n6. Extract reusable logic into custom hooks\n7. Use proper key props in lists\n8. Handle loading and error states\n9. Add PropTypes or TypeScript interfaces\n10. Include necessary imports (React, hooks, libraries)\n</react_best_practices>\n\n<critical_reminders>\n- Output brief analysis (2-3 sentences) then ONLY the JSON structure\n- No markdown code blocks (\x60\x60\x60)\n- Use proper React patterns and hooks\n- Include all necessary imports\n- Properly escape all special characters in content strings\n- Ensure JSON is valid and parseable\n</critical_reminders>"

def CLAUDE_MODIFICATION_PROMPT : String :=
  "<mode>REACT CODE MODIFICATION</mode>\n\n<instructions>\nYou are now in React code modification mode. Follow this process:\n\n1. ANALYZE: Understand what React code needs to be changed and why\n2. LOCATE: Identify exact line numbers and content to modify\n3. MODIFY: Provide precise line-based changes in JSON format\n\nCRITICAL OUTPUT FORMAT:\n- Start with brief analysis (2-3 sentences explaining your changes)\n- Then output ONLY valid JSON (no markdown, no code blocks, no extra text)\n- Format: [Brief reasoning] + JSON structure\n- NOTE: Do NOT include \"old_content\" field - only provide line numbers and new content\n</instructions>\n\n<json_structure>\n\x7b\n  \"type\": \"code_changes\",\n  \"changes\": [\n    \x7b\n      \"file\": \"path/to/Component.jsx\",\n      \"modifications\": [\n        \x7b\n          \"operation\": \"replace\" | \"insert\" | \"delete\" | \"insert_before\",\n          \"start_line\": <number>,\n          \"end_line\": <number>,\n          \"new_content\": \"new content to insert or replace with\"\n        \x7d\n      ]\n    \x7d\n  ],\n  \"summary\": \"Brief description of changes made\"\n\x7d\n</json_structure>\n\n<operations>\n<operation name=\"replace\">\n- start_line: First line number to replace (1-indexed)\n- end_line: Last line number to replace (inclusive, 1-indexed)\n- new_content: New content to insert (NO old_content field needed)\n</operation>\n\n<operation name=\"insert\">\n- start_line: Line number after which to insert (1-indexed)\n- new_content: Content to insert\n</operation>\n\n<operation name=\"insert_before\">\n- start_line: Line number before which to insert (1-indexed)\n- new_content: Content to insert\n</operation>\n\n<operation name=\"delete\">\n- start_line: First line number to delete (1-indexed)\n- end_line: Last line number to delete (inclusive, 1-indexed)\n</operation>\n</operations>\n\n<critical_reminders>\n- Output brief analysis (2-3 sentences) then ONLY the JSON structure\n- NO \"old_content\" field - not needed for frontend\n- No markdown code blocks (\x60\x60\x60)\n- Use \\n for newlines in strings\n- Ensure JSON is valid and parseable\n- List modifications in top-to-bottom order per file\n</critical_reminders>"

def CLAUDE_EXAMPLES_ACK : String :=
  "I understand both React code generation and modification formats. For generation requests, I will create complete React components in JSON format. For modification requests, I will provide precise line-based changes WITHOUT old_content field. I will always start with brief analysis, then output only valid JSON without markdown."

def OPENAI_GENERATION_PROMPT : String :=
  "# React Code Generation Mode\n\n## Instructions\n\nYou are now in React code generation mode. Follow this process EXACTLY:\n\n### Step 1: ANALYZE\nUnderstand the React requirements and plan your component structure.\n\n### Step 2: STRUCTURE\nDetermine the file organization (components, hooks, utils, styles).\n\n### Step 3: GENERATE\nCreate complete React code in JSON format.\n\n## Output Format (CRITICAL)\n\n**Format:** [Brief analysis] + JSON structure\n\n1. Start with brief analysis (2-3 sentences explaining your approach)\n2. Then output ONLY valid JSON\n3. **DO NOT** wrap JSON in \x60\x60\x60json or \x60\x60\x60 blocks\n4. Output raw JSON only\n\n### Example Flow:\n\x60\x60\x60\nI\x27ll create a Counter component using useState hook with increment/decrement functionality.\n\n\x7b\n  \"type\": \"code_generation\",\n  \"changes\": [...]\n\x7d\n\x60\x60\x60\n\n## Expected JSON Structure\n\n\x60\x60\x60json\n\x7b\n  \"type\": \"code_generation\",\n  \"changes\": [\n    \x7b\n      \"file\": \"src/components/ComponentName.jsx\",\n      \"content\": \"complete file content as string with escaped newlines\"\n    \x7d\n  ],\n  \"summary\": \"Brief description of what was generated\"\n\x7d\n\x60\x60\x60\n\n## React Best Practices\n\nFollow these rules:\n1. ✅ Use functional components with hooks (NO class components)\n2. ✅ Destructure props for cleaner code\n3. ✅ Use TypeScript types when applicable (.tsx extension)\n4. ✅ Follow naming: PascalCase for components, camelCase for functions\n5. ✅ Keep components focused (single responsibility)\n6. ✅ Extract reusable logic into custom hooks\n7. ✅ Use proper key props in lists\n8. ✅ Handle loading and error states\n9. ✅ Add PropTypes or TypeScript interfaces\n10. ✅ Include all necessary imports\n\n## File Structure Patterns\n\nUse these paths:\n- **Components**: \x60src/components/ComponentName.jsx\x60 or \x60.tsx\x60\n- **Hooks**: \x60src/hooks/useHookName.js\x60\n- **Utils**: \x60src/utils/utilName.js\x60\n- **Styles**: \x60src/components/ComponentName.module.css\x60\n- **Types**: \x60src/types/types.ts\x60\n- **API**: \x60src/api/apiName.js\x60\n\n## Critical Reminders\n\n- ⚠️ Output brief analysis FIRST (2-3 sentences)\n- ⚠️ Then output ONLY the JSON (no markdown blocks)\n- ⚠️ Properly escape special characters (\\n for newlines, \\\" for quotes)\n- ⚠️ Ensure JSON is valid and parseable\n- ⚠️ Include all necessary imports\n- ⚠️ Use proper React patterns"

def OPENAI_MODIFICATION_PROMPT : String :=
  "# React Code Modification Mode\n\n## Instructions\n\nYou are now in React code modification mode. Follow this process EXACTLY:\n\n### Step 1: ANALYZE\nUnderstand what React code needs to be changed and why.\n\n### Step 2: LOCATE\nIdentify EXACT line numbers (1-indexed) and content to modify.\n\n### Step 3: MODIFY\nProvide precise line-based changes in JSON format.\n\n## Output Format (CRITICAL)\n\n**Format:** [Brief analysis] + JSON structure\n\n1. Start with brief analysis (2-3 sentences explaining changes)\n2. Then output ONLY valid JSON\n3. **DO NOT** wrap JSON in \x60\x60\x60json or \x60\x60\x60 blocks\n4. Output raw JSON only\n5. **DO NOT** include \"old_content\" field\n\n### Example Flow:\n\x60\x60\x60\nI\x27ll add a loading state using useState and display a loading message.\n\n\x7b\n  \"type\": \"code_changes\",\n  \"changes\": [...]\n\x7d\n\x60\x60\x60\n\n## Expected JSON Structure\n\n\x60\x60\x60json\n\x7b\n  \"type\": \"code_changes\",\n  \"changes\": [\n    \x7b\n      \"file\": \"path/to/Component.jsx\",\n      \"modifications\": [\n        \x7b\n          \"operation\": \"replace\",\n          \"start_line\": 5,\n          \"end_line\": 7,\n          \"new_content\": \"new code here\"\n        \x7d\n      ]\n    \x7d\n  ],\n  \"summary\": \"Brief description of changes\"\n\x7d\n\x60\x60\x60\n\n## Operations\n\n### 1. **replace**\nChange existing lines in the component.\n\n**Fields:**\n- \x60start_line\x60: First line to replace (1-indexed, must be EXACT)\n- \x60end_line\x60: Last line to replace (inclusive, 1-indexed, must be EXACT)\n- \x60new_content\x60: New content (NO old_content field)\n\n**Use when:** Modifying code, fixing bugs, updating values\n\n### 2. **insert**\nAdd new lines AFTER a specified line.\n\n**Fields:**\n- \x60start_line\x60: Line after which to insert (1-indexed)\n- \x60new_content\x60: Content to insert\n\n**Use when:** Adding new hooks, state, functions\n\n### 3. **insert_before**\nAdd new lines BEFORE a specified line.\n\n**Fields:**\n- \x60start_line\x60: Line before which to insert (1-indexed)\n- \x60new_content\x60: Content to insert\n\n**Use when:** Adding imports, code before existing logic\n\n### 4. **delete**\nRemove lines from the file.\n\n**Fields:**\n- \x60start_line\x60: First line to delete (1-indexed)\n- \x60end_line\x60: Last line to delete (inclusive, 1-indexed)\n\n**Use when:** Removing unnecessary code\n\n## Modification Patterns\n\nCommon React modification patterns:\n1. **Adding state**: Insert useState after existing hooks\n2. **Adding props**: Modify component function signature\n3. **Event handlers**: Insert new function before return\n4. **JSX changes**: Replace specific lines in return\n5. **Imports**: Insert at top of file\n6. **Hooks**: Replace hook definition lines\n7. **Effects**: Insert useEffect after state\n\n## Critical Rules\n\n- ⚠️ Line numbers are 1-indexed (first line = 1)\n- ⚠️ **NO** \"old_content\" field\n- ⚠️ Count line numbers EXACTLY (include blank lines)\n- ⚠️ Preserve proper indentation\n- ⚠️ Use \\n for line breaks\n- ⚠️ Escape quotes properly\n- ⚠️ Order modifications top to bottom\n- ⚠️ Ensure valid JSON\n\n## Critical Reminders\n\n- ⚠️ Output brief analysis FIRST (2-3 sentences)\n- ⚠️ Then output ONLY the JSON (no markdown blocks)\n- ⚠️ **NO** \"old_content\" field\n- ⚠️ Be EXTREMELY PRECISE with line numbers\n- ⚠️ Count ALL lines including blanks"

def OPENAI_EXAMPLES_ACK : String :=
  "I understand both React code generation and modification formats EXACTLY. For generation, I create complete React components in JSON format. For modifications, I provide precise line-based changes WITHOUT old_content field. I ALWAYS start with brief analysis, then output ONLY valid JSON without markdown code blocks. I am EXTREMELY PRECISE with line numbers and count them EXACTLY."

/-- `CLAUDE_EXAMPLES` (claude.py lines 171-186): the priming pair.  The user
message is stored as a content-block list whose single block carries
`"cache_control": {"type": "ephemeral"}`; the assistant acknowledgment is a
plain string. -/
def CLAUDE_EXAMPLES : List Message :=
  [ ⟨"user", Content.blocks
      [("text", Content.str (CLAUDE_GENERATION_PROMPT ++ "\n\n---\n\n" ++ CLAUDE_MODIFICATION_PROMPT), true)]⟩,
    ⟨"assistant", Content.str CLAUDE_EXAMPLES_ACK⟩ ]

/-- `OPENAI_EXAMPLES` (openai_backend.py lines 272-281): both entries are plain
strings (OpenAI caches automatically, no explicit marker). -/
def OPENAI_EXAMPLES : List Message :=
  [ ⟨"user", Content.str (OPENAI_GENERATION_PROMPT ++ "\n\n---\n\n" ++ OPENAI_MODIFICATION_PROMPT)⟩,
    ⟨"assistant", Content.str OPENAI_EXAMPLES_ACK⟩ ]

/-! ### Conversation buffers (claude.py lines 192-283, openai_backend.py 287-326) -/

/-- Python list slicing `l[s:]` for an integer start, as used with a negative
start in `self.messages[-(self.max_messages - 2):]` and
`self.messages[-self.max_messages:]`. -/
def pySliceFrom (l : List α) (s : Int) : List α :=
  if 0 ≤ s then l.drop s.toNat else l.drop (l.length - (-s).toNat)

/-- The second step of `_trim_if_needed`:
`if len(messages) > 2 and messages[2]["role"] != "user": messages = messages[:2] + messages[3:]`. -/
def roleCheck (kept : List Message) : List Message :=
  match kept[2]? with
  | some m => if m.role ≠ "user" then kept.take 2 ++ kept.drop 3 else kept
  | none => kept

/-- `_trim_if_needed` — the method bodies in `ClaudeConversationBuffer`
(claude.py lines 211-222) and `OpenAIConversationBuffer` (openai_backend.py
lines 306-317) are identical, so both are embedded through this one function
(with its second `if` statement split off as `roleCheck`):
if over capacity, keep the pinned first two entries plus the most recent
`max_messages - 2` (examples case) or just the most recent `max_messages`
(plain case); then apply `roleCheck`. -/
def trimCore (max_messages : Nat) (examples_injected : Bool) (messages : List Message) :
    List Message :=
  if messages.length > max_messages then
    roleCheck
      (if examples_injected then
        messages.take 2 ++ pySliceFrom messages (-((max_messages : Int) - 2))
      else
        pySliceFrom messages (-(max_messages : Int)))
  else messages

/-- `ClaudeConversationBuffer` state (claude.py lines 195-198). -/
structure ClaudeConversationBuffer where
  messages : List Message
  max_messages : Nat
  examples_injected : Bool

/-- `ClaudeConversationBuffer()` with the default `max_messages=20`. -/
def newClaudeBuffer : ClaudeConversationBuffer :=
  { messages := [], max_messages := 20, examples_injected := false }

/-- `inject_examples` (claude.py lines 200-204): seed the priming pair once,
only into an empty buffer. -/
def ClaudeConversationBuffer.inject_examples (b : ClaudeConversationBuffer) :
    ClaudeConversationBuffer :=
  if !b.examples_injected && b.messages.isEmpty then
    { b with messages := CLAUDE_EXAMPLES, examples_injected := true }
  else b

/-- `add_message` (claude.py lines 206-209): append a plain-text entry, then
trim. -/
def ClaudeConversationBuffer.add_message (b : ClaudeConversationBuffer)
    (role content : String) : ClaudeConversationBuffer :=
  { b with
    messages := trimCore b.max_messages b.examples_injected
      (b.messages ++ [⟨role, Content.str content⟩]) }

/-- `clear` (claude.py lines 280-283). -/
def ClaudeConversationBuffer.clear (b : ClaudeConversationBuffer) :
    ClaudeConversationBuffer :=
  { b with messages := [], examples_injected := false }

/-- The content-block wrapper synthesized at export time (claude.py lines
245-251 and 267-273):
`[{"type": "text", "text": msg["content"], "cache_control": {"type": "ephemeral"}}]`. -/
def wrapCache (c : Content) : Content :=
  Content.blocks [("text", c, true)]

/-- The export loop `for i, msg in enumerate(...)` that copies each message and
wraps the content of the last one (`i == len - 1`) with `wrapCache`. -/
def markLast : List Message → List Message
  | [] => []
  | [m] => [⟨m.role, wrapCache m.content⟩]
  | m :: m2 :: rest => ⟨m.role, m.content⟩ :: markLast (m2 :: rest)

/-- `get_messages_for_api` (claude.py lines 224-278).  `conversation[:-3]` and
`conversation[-3:]` are `take (len - 3)` / `drop (len - 3)`, which agree with
Python slicing on the guarded branches (`len > 3`). -/
def ClaudeConversationBuffer.get_messages_for_api (b : ClaudeConversationBuffer) :
    List Message :=
  if b.messages.length ≤ 3 then b.messages
  else if b.examples_injected then
    let examples := b.messages.take 2
    let conversation := b.messages.drop 2
    if conversation.length ≤ 3 then b.messages
    else
      let cacheable := conversation.take (conversation.length - 3)
      let recent := conversation.drop (conversation.length - 3)
      examples ++ markLast cacheable ++ recent
  else
    let toCache := b.messages.take (b.messages.length - 3)
    let recent := b.messages.drop (b.messages.length - 3)
    markLast toCache ++ recent

/-- `OpenAIConversationBuffer` state (openai_backend.py lines 290-293). -/
structure OpenAIConversationBuffer where
  messages : List Message
  max_messages : Nat
  examples_injected : Bool

/-- `OpenAIConversationBuffer()` with the default `max_messages=20`. -/
def newOpenAIBuffer : OpenAIConversationBuffer :=
  { messages := [], max_messages := 20, examples_injected := false }

/-- `inject_examples` (openai_backend.py lines 295-299). -/
def OpenAIConversationBuffer.inject_examples (b : OpenAIConversationBuffer) :
    OpenAIConversationBuffer :=
  if !b.examples_injected && b.messages.isEmpty then
    { b with messages := OPENAI_EXAMPLES, examples_injected := true }
  else b

/-- `add_message` (openai_backend.py lines 301-304). -/
def OpenAIConversationBuffer.add_message (b : OpenAIConversationBuffer)
    (role content : String) : OpenAIConversationBuffer :=
  { b with
    messages := trimCore b.max_messages b.examples_injected
      (b.messages ++ [⟨role, Content.str content⟩]) }

/-- `clear` (openai_backend.py lines 323-326). -/
def OpenAIConversationBuffer.clear (b : OpenAIConversationBuffer) :
    OpenAIConversationBuffer :=
  { b with messages := [], examples_injected := false }

/-- `get_messages_for_api` (openai_backend.py lines 319-321): the raw list. -/
def OpenAIConversationBuffer.get_messages_for_api (b : OpenAIConversationBuffer) :
    List Message :=
  b.messages

/-! ### Token-usage normalization and the turn pipeline (src/latest/app.py) -/

/-- The `TokenUsage` pydantic model (app.py lines 65-71): the unified record
attached to every response; optional fields default to 0. -/
structure TokenUsage where
  input_tokens : Nat
  output_tokens : Nat
  cache_creation_input_tokens : Nat
  cache_read_input_tokens : Nat
  cached_tokens : Nat
deriving DecidableEq, Repr

/-- The raw provider `usage` dict, restricted to the keys `process_chat_request`
reads (each with `usage.get(key, 0)`). -/
structure RawUsage where
  input_tokens : Option Nat := none
  output_tokens : Option Nat := none
  cache_creation_input_tokens : Option Nat := none
  cache_read_input_tokens : Option Nat := none
  prompt_tokens : Option Nat := none
  completion_tokens : Option Nat := none
  cached_tokens : Option Nat := none
deriving DecidableEq, Repr

/-- The provider-dependent usage normalization (app.py lines 244-260). -/
def normalizeUsage (provider : String) (usage : RawUsage) : TokenUsage :=
  if provider = "claude" then
    { input_tokens := usage.input_tokens.getD 0
      output_tokens := usage.output_tokens.getD 0
      cache_creation_input_tokens := usage.cache_creation_input_tokens.getD 0
      cache_read_input_tokens := usage.cache_read_input_tokens.getD 0
      cached_tokens := 0 }
  else
    { input_tokens := usage.prompt_tokens.getD 0
      output_tokens := usage.completion_tokens.getD 0
      cache_creation_input_tokens := 0
      cache_read_input_tokens := 0
      cached_tokens := usage.cached_tokens.getD 0 }

/-- The JSON object decoded from the model's reply, restricted to the keys the
pipeline reads: `parsed.get('type')` and `parsed['changes']` (when present). -/
structure ParsedPayload where
  type? : Option String := none
  changes? : Option (List Change) := none
deriving DecidableEq, Repr

/-- `mod.pop('old_content', None)`. -/
def stripOldContent (m : Modification) : Modification :=
  { m with old_content := none }

/-- `remove_old_content` (claude.py lines 391-399, openai_backend.py lines
430-438; identical bodies): for a `code_changes` payload that has a `changes`
list, unconditionally drop the legacy `old_content` field of every
modification. -/
def remove_old_content (parsed : ParsedPayload) : ParsedPayload :=
  match parsed.type?, parsed.changes? with
  | some "code_changes", some cs =>
      { parsed with changes? := some (cs.map fun c =>
          { c with modifications := c.modifications.map stripOldContent }) }
  | _, _ => parsed

/-- The tags and transformed payload `process_chat_request` returns on the
decode-success path. -/
structure NormalizedResponse where
  type : String
  parsed : ParsedPayload
  is_code_change : Bool
  request_type : String
  stores_generation : Bool
deriving DecidableEq, Repr

/-- The decode-success path of `process_chat_request` (app.py lines 271-302):
strip `old_content`, record whether the payload is persisted as the session's
generated code (`parsed.get('type') == 'code_generation'`), normalize a
`code_changes` payload via `sort_modifications`, then derive the response tags,
with `response_type = parsed.get('type', 'code_generation')`. -/
def handleDecodedPayload (parsed0 : ParsedPayload) : NormalizedResponse :=
  let parsed1 := remove_old_content parsed0
  let storesGen := parsed1.type? == some "code_generation"
  let parsed2 :=
    match parsed1.type?, parsed1.changes? with
    | some "code_changes", some cs => { parsed1 with changes? := some (sort_modifications cs) }
    | _, _ => parsed1
  let response_type := parsed2.type?.getD "code_generation"
  { type := response_type
    parsed := parsed2
    is_code_change := response_type == "code_generation" || response_type == "code_changes"
    request_type := if response_type == "code_changes" then "modification" else "generation"
    stores_generation := storesGen }

/-- One request/response turn of `process_chat_request` for the Claude provider
(app.py lines 200-242), with the remote `call_api` abstracted by its outcome:
inject the priming examples once, append the assembled user message, export the
payload, then either append the assistant turn and normalize usage (success) or
surface the single gateway error `HTTPException(500, "API Error: ...")`,
leaving the buffer exactly as it was before the call (failure). -/
def processTurn (buf : ClaudeConversationBuffer) (currentMessage : String)
    (callResult : Except String (String × RawUsage)) :
    ClaudeConversationBuffer × Except String (String × TokenUsage) :=
  let buf1 := if !buf.examples_injected then buf.inject_examples else buf
  let buf2 := buf1.add_message "user" currentMessage
  let _apiMessages := buf2.get_messages_for_api
  match callResult with
  | Except.error e => (buf2, Except.error ("API Error: " ++ e))
  | Except.ok (response, usage) =>
      (buf2.add_message "assistant" response,
       Except.ok (response, normalizeUsage "claude" usage))

/-! ### Specification-side helpers for stating the buffer invariants -/

/-- The expected role for an alternation state: `true` expects `"user"`. -/
def roleOf (b : Bool) : String :=
  if b then "user" else "assistant"

/-- `altRoles b l` holds when the roles in `l` alternate, the first one being
`roleOf b`. -/
def altRoles : Bool → List Message → Bool
  | _, [] => true
  | b, m :: rest => (m.role == roleOf b) && altRoles (!b) rest

/-- The alternation state after consuming `l`. -/
def nextAfter : Bool → List Message → Bool
  | b, [] => b
  | b, _ :: rest => nextAfter (!b) rest

/-- Fold a list of `(role, content)` turns into the buffer with `add_message`. -/
def addTurns (b : ClaudeConversationBuffer) : List (String × String) → ClaudeConversationBuffer
  | [] => b
  | (r, c) :: rest => addTurns (b.add_message r c) rest

/-- The roles of a turn list alternate, the first being `roleOf b`. -/
def TurnsAlt : Bool → List (String × String) → Bool
  | _, [] => true
  | b, (r, _) :: rest => (r == roleOf b) && TurnsAlt (!b) rest

/-- Accumulate a lookup result: what a defaultdict entry becomes after the
remaining pairs are appended. -/
def extendOpt (o : Option (List Modification)) (vs : List Modification) :
    Option (List Modification) :=
  match o with
  | some ms => some (ms ++ vs)
  | none => if vs.isEmpty then none else some vs

/-- Invariant of the Claude buffer under alternating `add_message` traffic
after `inject_examples`: default capacity, examples pinned in front, the
conversation suffix alternates starting with a user turn, capacity holds, and
`next` is the alternation state for the next appended turn. -/
def GoodState (b : ClaudeConversationBuffer) (next : Bool) : Prop :=
  b.max_messages = 20 ∧ b.examples_injected = true ∧
  ∃ conv, b.messages = CLAUDE_EXAMPLES ++ conv ∧ altRoles true conv = true ∧
    conv.length ≤ 18 ∧ next = nextAfter true conv

/-! ## Lemmas: stable descending sort -/

theorem filter_orderedInsert_key (k : Int) (x : Modification) :
    ∀ l : List Modification,
      (List.orderedInsert modGE x l).filter (fun m => modKey m == k) =
        if modKey x == k then x :: l.filter (fun m => modKey m == k)
        else l.filter (fun m => modKey m == k)
  | [] => by
      by_cases h : modKey x == k <;> simp [List.orderedInsert, List.filter, h]
  | b :: l => by
      simp only [List.orderedInsert]
      by_cases hr : modGE x b
      · rw [if_pos hr]
        by_cases hx : modKey x == k <;> simp [List.filter_cons, hx]
      · rw [if_neg hr]
        rw [List.filter_cons, List.filter_cons, filter_orderedInsert_key k x l]
        by_cases hx : modKey x == k
        · have hbk : (modKey b == k) = false := by
            have hlt : ¬ modKey b ≤ modKey x := hr
            have hxk : modKey x = k := by simpa using hx
            simp only [beq_eq_false_iff_ne, ne_eq]
            omega
          simp [hx, hbk]
        · simp [hx]

theorem filter_insertionSort_key (k : Int) :
    ∀ l : List Modification,
      (List.insertionSort modGE l).filter (fun m => modKey m == k) =
        l.filter (fun m => modKey m == k)
  | [] => rfl
  | x :: l => by
      simp only [List.insertionSort]
      rw [filter_orderedInsert_key, filter_insertionSort_key k l, List.filter_cons]

/-! ## Lemmas: the defaultdict grouping -/

theorem valsFor_cons (x p : String) (m : Modification) (l : List (String × Modification)) :
    valsFor x ((p, m) :: l) = if p = x then m :: valsFor x l else valsFor x l := by
  by_cases h : p = x <;> simp [valsFor, List.filter_cons, h]

theorem map_fst_addMod (p : String) (m : Modification) :
    ∀ g : List (String × List Modification),
      (addMod g p m).map Prod.fst =
        if p ∈ g.map Prod.fst then g.map Prod.fst else g.map Prod.fst ++ [p]
  | [] => by simp [addMod]
  | (q, ms) :: g => by
      by_cases hq : q = p
      · subst hq; simp [addMod]
      · simp only [addMod, if_neg hq, List.map_cons, map_fst_addMod p m g]
        by_cases hp : p ∈ g.map Prod.fst
        · simp [hp, Ne.symm hq]
        · simp [hp, Ne.symm hq]

theorem lookupG_addMod (p : String) (m : Modification) (x : String) :
    ∀ g : List (String × List Modification),
      lookupG (addMod g p m) x =
        if x = p then some ((lookupG g p).getD [] ++ [m]) else lookupG g x
  | [] => by
      by_cases hx : x = p
      · subst hx; simp [addMod, lookupG]
      · simp [addMod, lookupG, hx, Ne.symm hx]
  | (q, ms) :: g => by
      by_cases hq : q = p
      · subst hq
        by_cases hx : x = q
        · subst hx; simp [addMod, lookupG]
        · simp [addMod, lookupG, hx, Ne.symm hx]
      · by_cases hx : x = q
        · subst hx
          simp [addMod, if_neg hq, lookupG, Ne.symm hq, hq]
        · simp [addMod, if_neg hq, lookupG, Ne.symm hx,
            lookupG_addMod p m x g]

theorem map_fst_foldl_addMod :
    ∀ (l : List (String × Modification)) (g : List (String × List Modification)),
      ((l.foldl (fun acc pm => addMod acc pm.1 pm.2) g).map Prod.fst) =
        (l.map Prod.fst).foldl (fun ks x => if x ∈ ks then ks else ks ++ [x]) (g.map Prod.fst)
  | [], _ => rfl
  | pm :: l, g => by
      simp only [List.foldl_cons, List.map_cons]
      rw [map_fst_foldl_addMod l, map_fst_addMod]

theorem lookupG_foldl_addMod :
    ∀ (l : List (String × Modification)) (g : List (String × List Modification)) (x : String),
      lookupG (l.foldl (fun acc pm => addMod acc pm.1 pm.2) g) x =
        extendOpt (lookupG g x) (valsFor x l)
  | [], g, x => by
      cases h : lookupG g x <;> simp [extendOpt, valsFor, h]
  | (p, m) :: l, g, x => by
      simp only [List.foldl_cons]
      rw [lookupG_foldl_addMod l, lookupG_addMod, valsFor_cons]
      by_cases hx : x = p
      · subst hx
        rw [if_pos rfl, if_pos rfl]
        cases h : lookupG g x <;> simp [extendOpt, h]
      · rw [if_neg hx, if_neg (fun h => hx h.symm)]

theorem groupChanges_eq_foldl_pairs (changes : List Change) :
    groupChanges changes = (changePairs changes).foldl (fun acc pm => addMod acc pm.1 pm.2) [] := by
  rw [groupChanges, changePairs, List.foldl_flatten, List.foldl_map]
  congr 1
  funext acc c
  rw [List.foldl_map]

theorem map_fst_groupChanges (changes : List Change) :
    (groupChanges changes).map Prod.fst = firstDedup ((changePairs changes).map Prod.fst) := by
  rw [groupChanges_eq_foldl_pairs, map_fst_foldl_addMod, firstDedup]
  rfl

theorem lookupG_groupChanges (changes : List Change) (x : String) :
    lookupG (groupChanges changes) x = extendOpt none (valsFor x (changePairs changes)) := by
  rw [groupChanges_eq_foldl_pairs, lookupG_foldl_addMod]
  rfl

theorem nodup_foldl_dedup :
    ∀ (l : List String) (ks : List String), ks.Nodup →
      (l.foldl (fun ks x => if x ∈ ks then ks else ks ++ [x]) ks).Nodup
  | [], _, h => h
  | x :: l, ks, h => by
      simp only [List.foldl_cons]
      apply nodup_foldl_dedup l
      by_cases hx : x ∈ ks
      · simpa [hx]
      · simp only [if_neg hx]
        exact List.Nodup.append h (List.nodup_singleton x)
          (by simpa [List.disjoint_singleton] using hx)

theorem nodup_firstDedup (l : List String) : (firstDedup l).Nodup :=
  nodup_foldl_dedup l [] List.nodup_nil

theorem lookupG_of_mem :
    ∀ (g : List (String × List Modification)),
      (g.map Prod.fst).Nodup → ∀ p ms, (p, ms) ∈ g → lookupG g p = some ms
  | [], _, p, ms, h => by cases h
  | (q, vs) :: g, hnd, p, ms, h => by
      rcases List.mem_cons.1 h with heq | hmem
      · cases heq
        simp [lookupG]
      · have hq : q ≠ p := by
          intro hqp
          subst hqp
          have : q ∈ g.map Prod.fst := List.mem_map.2 ⟨(q, ms), hmem, rfl⟩
          simp only [List.map_cons, List.nodup_cons] at hnd
          exact hnd.1 this
        simp only [lookupG, if_neg hq]
        exact lookupG_of_mem g (by simpa using (List.nodup_cons.1 (by simpa using hnd)).2) p ms hmem

/-- Central characterization of `sort_modifications`: the output's file order is
the first-appearance order of paths among (file, modification) pairs, and each
output entry's list is the stable descending sort of exactly that path's
modifications in input order. -/
theorem sort_modifications_char (changes : List Change) :
    ((sort_modifications changes).map Change.file =
      firstDedup ((changePairs changes).map Prod.fst)) ∧
    ∀ c ∈ sort_modifications changes,
      c.modifications = List.insertionSort modGE (valsFor c.file (changePairs changes)) := by
  constructor
  · rw [sort_modifications, List.map_map]
    rw [show ((fun c => c.file) ∘ fun pr : String × List Modification =>
        ({ file := pr.1, modifications := List.insertionSort modGE pr.2 } : Change)) = Prod.fst
      from rfl]
    exact map_fst_groupChanges changes
  · intro c hc
    rw [sort_modifications, List.mem_map] at hc
    obtain ⟨pr, hpr, rfl⟩ := hc
    have hnd : ((groupChanges changes).map Prod.fst).Nodup := by
      rw [map_fst_groupChanges]; exact nodup_firstDedup _
    have hlk : lookupG (groupChanges changes) pr.1 = some pr.2 :=
      lookupG_of_mem _ hnd pr.1 pr.2 (by simpa using hpr)
    rw [lookupG_groupChanges] at hlk
    simp only [extendOpt] at hlk
    split at hlk
    · exact absurd hlk (by simp)
    · simp only [Option.some.injEq] at hlk
      simp [hlk]

/-! ## Claim C1 -/

/-- C1: for every batch of code changes, `sort_modifications` orders each
file's modification list by `start_line` descending, stably — modifications
with equal `start_line` keep their relative input order (stated as: filtering
any key value out of the output equals filtering it out of that file's input
order) — and on the concrete batch replace(2-2), delete(7-8), insert-after(4)
for one file, the normalized order is delete(7-8), insert-after(4),
replace(2-2). -/
theorem sort_modifications_descending_stable :
    (∀ (changes : List Change), ∀ c ∈ sort_modifications changes,
      c.modifications.Sorted modGE ∧
      ∀ k : Int, c.modifications.filter (fun m => modKey m == k) =
        (valsFor c.file (changePairs changes)).filter (fun m => modKey m == k)) ∧
    sort_modifications
        [⟨"src/App.jsx",
          [⟨"replace", some 2, some 2, some "X", none⟩,
           ⟨"delete", some 7, some 8, none, none⟩,
           ⟨"insert", some 4, none, some "Y", none⟩]⟩] =
      [⟨"src/App.jsx",
        [⟨"delete", some 7, some 8, none, none⟩,
         ⟨"insert", some 4, none, some "Y", none⟩,
         ⟨"replace", some 2, some 2, some "X", none⟩]⟩] := by
  constructor
  · intro changes c hc
    have h2 := (sort_modifications_char changes).2 c hc
    constructor
    · rw [h2]; exact List.sorted_insertionSort modGE _
    · intro k; rw [h2, filter_insertionSort_key]
  · decide

/-- Witness for C1: the per-entry properties at a concrete input. -/
theorem sort_modifications_descending_stable_witness :
    ((⟨"w.js", [⟨"delete", some 5, some 5, none, none⟩,
                ⟨"replace", some 1, some 1, some "A", none⟩]⟩ : Change) ∈
      sort_modifications
        [⟨"w.js", [⟨"replace", some 1, some 1, some "A", none⟩,
                   ⟨"delete", some 5, some 5, none, none⟩]⟩]) ∧
    ((⟨"w.js", [⟨"delete", some 5, some 5, none, none⟩,
                ⟨"replace", some 1, some 1, some "A", none⟩]⟩ : Change).modifications.Sorted modGE ∧
      ∀ k : Int,
        (⟨"w.js", [⟨"delete", some 5, some 5, none, none⟩,
                   ⟨"replace", some 1, some 1, some "A", none⟩]⟩ : Change).modifications.filter
            (fun m => modKey m == k) =
          (valsFor "w.js" (changePairs
            [⟨"w.js", [⟨"replace", some 1, some 1, some "A", none⟩,
                       ⟨"delete", some 5, some 5, none, none⟩]⟩])).filter
            (fun m => modKey m == k)) :=
  ⟨by decide, sort_modifications_descending_stable.1 _ _ (by decide)⟩

/-! ## Claim C10 -/

/-- C10 counterexample: an input entry whose `modifications` list is empty
creates no defaultdict key, so the output has no entry for its (distinct) file
path at all — refuting "exactly one entry per distinct file path". -/
theorem sort_modifications_drops_empty_entry :
    sort_modifications [⟨"a.js", []⟩] = [] := by decide

/-- C10 (amended): the output has exactly one entry per distinct file path that
carries at least one modification; entries appear in first-appearance order of
those (file, modification) pairs; and each entry's list is a permutation —
namely the stable descending sort — of exactly the modifications listed for
that path across all input entries. -/
theorem sort_modifications_merges_by_path (changes : List Change) :
    ((sort_modifications changes).map Change.file =
      firstDedup ((changePairs changes).map Prod.fst)) ∧
    ∀ c ∈ sort_modifications changes,
      c.modifications.Perm (valsFor c.file (changePairs changes)) := by
  obtain ⟨h1, h2⟩ := sort_modifications_char changes
  refine ⟨h1, fun c hc => ?_⟩
  rw [h2 c hc]
  exact List.perm_insertionSort modGE _

/-- Witness for C10: the merge-by-path characterization at a concrete input
with a duplicated path. -/
theorem sort_modifications_merges_by_path_witness :
    ((sort_modifications
        [⟨"x.js", [⟨"replace", some 3, some 3, some "B", none⟩]⟩,
         ⟨"y.js", [⟨"delete", some 9, some 9, none, none⟩]⟩,
         ⟨"x.js", [⟨"insert", some 6, none, some "C", none⟩]⟩]).map Change.file =
      firstDedup ((changePairs
        [⟨"x.js", [⟨"replace", some 3, some 3, some "B", none⟩]⟩,
         ⟨"y.js", [⟨"delete", some 9, some 9, none, none⟩]⟩,
         ⟨"x.js", [⟨"insert", some 6, none, some "C", none⟩]⟩]).map Prod.fst)) ∧
    (⟨"x.js", [⟨"insert", some 6, none, some "C", none⟩,
               ⟨"replace", some 3, some 3, some "B", none⟩]⟩ : Change).modifications.Perm
      (valsFor "x.js" (changePairs
        [⟨"x.js", [⟨"replace", some 3, some 3, some "B", none⟩]⟩,
         ⟨"y.js", [⟨"delete", some 9, some 9, none, none⟩]⟩,
         ⟨"x.js", [⟨"insert", some 6, none, some "C", none⟩]⟩])) :=
  ⟨(sort_modifications_merges_by_path _).1,
   (sort_modifications_merges_by_path _).2 _ (by decide)⟩

/-! ## Lemmas: buffer trimming -/

theorem pySliceFrom_neg (l : List Message) (s : Int) (hs : s < 0) :
    pySliceFrom l s = l.drop (l.length - (-s).toNat) := by
  unfold pySliceFrom
  rw [if_neg (by omega)]

theorem length_pySliceFrom_neg_le (l : List Message) (s : Int) (hs : s < 0) :
    (pySliceFrom l s).length ≤ (-s).toNat := by
  rw [pySliceFrom_neg l s hs, List.length_drop]
  omega

theorem mem_pySliceFrom {m : Message} {l : List Message} {s : Int}
    (h : m ∈ pySliceFrom l s) : m ∈ l := by
  unfold pySliceFrom at h
  split at h
  · exact List.mem_of_mem_drop h
  · exact List.mem_of_mem_drop h

theorem length_roleCheck_le (kept : List Message) :
    (roleCheck kept).length ≤ kept.length := by
  unfold roleCheck
  split
  · split
    · simp only [List.length_append, List.length_take, List.length_drop]
      omega
    · exact le_refl _
  · exact le_refl _

theorem mem_roleCheck {m : Message} {kept : List Message} (h : m ∈ roleCheck kept) :
    m ∈ kept := by
  unfold roleCheck at h
  split at h
  · split at h
    · rcases List.mem_append.1 h with h1 | h1
      · exact List.mem_of_mem_take h1
      · exact List.mem_of_mem_drop h1
    · exact h
  · exact h

theorem roleCheck_of_not_user {kept : List Message} {m : Message}
    (h2 : kept[2]? = some m) (hrole : m.role ≠ "user") :
    roleCheck kept = kept.take 2 ++ kept.drop 3 := by
  unfold roleCheck
  rw [h2]
  simp [hrole]

theorem roleCheck_of_user {kept : List Message} {m : Message}
    (h2 : kept[2]? = some m) (hrole : m.role = "user") :
    roleCheck kept = kept := by
  unfold roleCheck
  rw [h2]
  simp [hrole]

theorem length_trimCore_le (maxM : Nat) (inj : Bool) (msgs : List Message)
    (hmax : 3 ≤ maxM) :
    (trimCore maxM inj msgs).length ≤ maxM := by
  unfold trimCore
  split
  case isTrue h =>
    refine le_trans (length_roleCheck_le _) ?_
    split
    case isTrue hinj =>
      rw [List.length_append, List.length_take]
      have hs : (pySliceFrom msgs (-((maxM : Int) - 2))).length ≤ maxM - 2 := by
        have := length_pySliceFrom_neg_le msgs (-((maxM : Int) - 2)) (by omega)
        omega
      omega
    case isFalse hinj =>
      have := length_pySliceFrom_neg_le msgs (-(maxM : Int)) (by omega)
      omega
  case isFalse h =>
    omega

theorem mem_trimCore {m : Message} {maxM : Nat} {inj : Bool} {msgs : List Message}
    (h : m ∈ trimCore maxM inj msgs) : m ∈ msgs := by
  unfold trimCore at h
  split at h
  · have h2 := mem_roleCheck h
    split at h2
    · rcases List.mem_append.1 h2 with h1 | h1
      · exact List.mem_of_mem_take h1
      · exact mem_pySliceFrom h1
    · exact mem_pySliceFrom h2
  · exact h

/-! ## Claim C3 -/

/-- C3: after any buffer call (`inject_examples`, `add_message`, `clear`), the
stored message list never exceeds `max_messages` (for the default-sized — or
any reasonably sized, `3 ≤ max_messages` — buffer that currently satisfies the
bound), for both the Claude and the OpenAI buffer. -/
theorem buffer_capacity_invariant
    (b : ClaudeConversationBuffer) (ob : OpenAIConversationBuffer) (r1 c1 r2 c2 : String)
    (hb3 : 3 ≤ b.max_messages) (hble : b.messages.length ≤ b.max_messages)
    (hob3 : 3 ≤ ob.max_messages) (hoble : ob.messages.length ≤ ob.max_messages) :
    (b.inject_examples.messages.length ≤ b.max_messages ∧
     (b.add_message r1 c1).messages.length ≤ b.max_messages ∧
     b.clear.messages.length ≤ b.max_messages) ∧
    (ob.inject_examples.messages.length ≤ ob.max_messages ∧
     (ob.add_message r2 c2).messages.length ≤ ob.max_messages ∧
     ob.clear.messages.length ≤ ob.max_messages) := by
  have hcl : CLAUDE_EXAMPLES.length = 2 := rfl
  have hop : OPENAI_EXAMPLES.length = 2 := rfl
  refine ⟨⟨?_, ?_, ?_⟩, ⟨?_, ?_, ?_⟩⟩
  · unfold ClaudeConversationBuffer.inject_examples
    split
    · simp only []
      omega
    · exact hble
  · exact length_trimCore_le _ _ _ hb3
  · simp [ClaudeConversationBuffer.clear]
  · unfold OpenAIConversationBuffer.inject_examples
    split
    · simp only []
      omega
    · exact hoble
  · exact length_trimCore_le _ _ _ hob3
  · simp [OpenAIConversationBuffer.clear]

/-- Witness for C3 at the freshly created default buffers. -/
theorem buffer_capacity_invariant_witness :
    (newClaudeBuffer.inject_examples.messages.length ≤ newClaudeBuffer.max_messages ∧
     (newClaudeBuffer.add_message "user" "hello").messages.length ≤ newClaudeBuffer.max_messages ∧
     newClaudeBuffer.clear.messages.length ≤ newClaudeBuffer.max_messages) ∧
    (newOpenAIBuffer.inject_examples.messages.length ≤ newOpenAIBuffer.max_messages ∧
     (newOpenAIBuffer.add_message "user" "hello").messages.length ≤ newOpenAIBuffer.max_messages ∧
     newOpenAIBuffer.clear.messages.length ≤ newOpenAIBuffer.max_messages) :=
  buffer_capacity_invariant newClaudeBuffer newOpenAIBuffer "user" "hello" "user" "hello"
    (by decide) (by decide) (by decide) (by decide)

/-! ## Claim C9 -/

theorem trimCore_no_examples_role_drop (maxM : Nat) (msgs : List Message) (m2 : Message)
    (hmax : 3 ≤ maxM) (hfull : msgs.length = maxM + 1)
    (hm2 : (msgs.drop 1)[2]? = some m2) (hrole : m2.role ≠ "user") :
    trimCore maxM false msgs = (msgs.drop 1).take 2 ++ (msgs.drop 1).drop 3 ∧
    (trimCore maxM false msgs).length = maxM - 1 := by
  have hkept : pySliceFrom msgs (-(maxM : Int)) = msgs.drop 1 := by
    rw [pySliceFrom_neg msgs _ (by omega)]
    congr 1
    omega
  have htrim : trimCore maxM false msgs = (msgs.drop 1).take 2 ++ (msgs.drop 1).drop 3 := by
    unfold trimCore
    rw [if_pos (by omega), if_neg (by simp), hkept, roleCheck_of_not_user hm2 hrole]
  refine ⟨htrim, ?_⟩
  rw [htrim]
  have hlen1 : (msgs.drop 1).length = maxM := by
    rw [List.length_drop]; omega
  have h2lt : 2 < (msgs.drop 1).length := by
    have := List.getElem?_eq_some_iff.1 hm2
    omega
  simp only [List.length_append, List.length_take, List.length_drop]
  omega

/-- C9: the post-trim role check also applies with no examples injected — when
`add_message` overflows a buffer whose examples were never injected and the
entry at index 2 of the retained last-`max_messages` suffix is not a user turn,
that single entry is additionally dropped, leaving `max_messages - 1` entries
and no examples.  Holds for both the Claude and the OpenAI buffer. -/
theorem role_check_without_examples
    (b : ClaudeConversationBuffer) (ob : OpenAIConversationBuffer)
    (r1 c1 r2 c2 : String) (m2 n2 : Message)
    (hbinj : b.examples_injected = false) (hbull : b.messages.length = b.max_messages)
    (hbmax : 3 ≤ b.max_messages)
    (hbm2 : ((b.messages ++ [Message.mk r1 (Content.str c1)]).drop 1)[2]? = some m2)
    (hbrole : m2.role ≠ "user")
    (hoinj : ob.examples_injected = false) (houll : ob.messages.length = ob.max_messages)
    (homax : 3 ≤ ob.max_messages)
    (hom2 : ((ob.messages ++ [Message.mk r2 (Content.str c2)]).drop 1)[2]? = some n2)
    (horole : n2.role ≠ "user") :
    ((b.add_message r1 c1).messages =
        ((b.messages ++ [Message.mk r1 (Content.str c1)]).drop 1).take 2 ++
          ((b.messages ++ [Message.mk r1 (Content.str c1)]).drop 1).drop 3 ∧
      (b.add_message r1 c1).messages.length = b.max_messages - 1 ∧
      (b.add_message r1 c1).examples_injected = false) ∧
    ((ob.add_message r2 c2).messages =
        ((ob.messages ++ [Message.mk r2 (Content.str c2)]).drop 1).take 2 ++
          ((ob.messages ++ [Message.mk r2 (Content.str c2)]).drop 1).drop 3 ∧
      (ob.add_message r2 c2).messages.length = ob.max_messages - 1 ∧
      (ob.add_message r2 c2).examples_injected = false) := by
  constructor
  · have hb := trimCore_no_examples_role_drop b.max_messages
      (b.messages ++ [Message.mk r1 (Content.str c1)]) m2 hbmax
      (by simp [hbull]) hbm2 hbrole
    refine ⟨?_, ?_, hbinj⟩
    · show trimCore b.max_messages b.examples_injected _ = _
      rw [hbinj]
      exact hb.1
    · show (trimCore b.max_messages b.examples_injected _).length = _
      rw [hbinj]
      exact hb.2
  · have ho := trimCore_no_examples_role_drop ob.max_messages
      (ob.messages ++ [Message.mk r2 (Content.str c2)]) n2 homax
      (by simp [houll]) hom2 horole
    refine ⟨?_, ?_, hoinj⟩
    · show trimCore ob.max_messages ob.examples_injected _ = _
      rw [hoinj]
      exact ho.1
    · show (trimCore ob.max_messages ob.examples_injected _).length = _
      rw [hoinj]
      exact ho.2

/-- Witness for C9: a full 20-message example-free buffer receiving one more
message whose retained index-2 entry is an assistant turn ends at 19 entries. -/
theorem role_check_without_examples_witness :
    ((ClaudeConversationBuffer.mk
        (List.replicate 20 (Message.mk "assistant" (Content.str "x"))) 20 false).add_message
      "assistant" "y").messages.length = 20 - 1 ∧
    ((OpenAIConversationBuffer.mk
        (List.replicate 20 (Message.mk "assistant" (Content.str "x"))) 20 false).add_message
      "assistant" "y").messages.length = 20 - 1 := by
  have h := role_check_without_examples
    (ClaudeConversationBuffer.mk
      (List.replicate 20 (Message.mk "assistant" (Content.str "x"))) 20 false)
    (OpenAIConversationBuffer.mk
      (List.replicate 20 (Message.mk "assistant" (Content.str "x"))) 20 false)
    "assistant" "y" "assistant" "y"
    (Message.mk "assistant" (Content.str "x")) (Message.mk "assistant" (Content.str "x"))
    rfl rfl (by decide) rfl (by decide)
    rfl rfl (by decide) rfl (by decide)
  exact ⟨h.1.2.1, h.2.2.1⟩

/-! ## Claim C8 -/

/-- C8 counterexample: `inject_examples` persists the priming pair verbatim, so
the first stored entry carries the cache-control content-block structure inside
the stored message list — refuting "every entry stored in the buffer uses plain
text content ... including for the messages placed by inject_examples". -/
theorem injected_example_not_plain :
    (newClaudeBuffer.inject_examples.messages[0]?).map isPlainText = some false ∧
    (newClaudeBuffer.inject_examples.messages[0]?).map hasMarker = some true := by
  exact ⟨rfl, rfl⟩

/-- C8 (amended): every entry stored through `add_message` is plain text (the
call only appends one plain-text entry and trimming only drops entries), and
the cache-hint wrapper is synthesized only in the return value of
`get_messages_for_api`; the stored priming pair itself, however, keeps its
persisted cache-control block. -/
theorem add_message_stores_plain (b : ClaudeConversationBuffer) (role content : String) :
    ∀ m ∈ (b.add_message role content).messages,
      m ∈ b.messages ∨ m = Message.mk role (Content.str content) := by
  intro m hm
  have h : m ∈ b.messages ++ [Message.mk role (Content.str content)] := mem_trimCore hm
  rcases List.mem_append.1 h with h1 | h1
  · exact Or.inl h1
  · exact Or.inr (by simpa using h1)

/-- Witness for C8 at a concrete buffer and message. -/
theorem add_message_stores_plain_witness :
    Message.mk "user" (Content.str "hi") ∈
      (newClaudeBuffer.add_message "user" "hi").messages ∧
    (Message.mk "user" (Content.str "hi") ∈ newClaudeBuffer.messages ∨
      Message.mk "user" (Content.str "hi") = Message.mk "user" (Content.str "hi")) := by
  have hmem : Message.mk "user" (Content.str "hi") ∈
      (newClaudeBuffer.add_message "user" "hi").messages := by
    show Message.mk "user" (Content.str "hi") ∈
      trimCore newClaudeBuffer.max_messages newClaudeBuffer.examples_injected
        (newClaudeBuffer.messages ++ [Message.mk "user" (Content.str "hi")])
    exact List.mem_singleton.2 rfl
  exact ⟨hmem, add_message_stores_plain newClaudeBuffer "user" "hi" _ hmem⟩

/-! ## Lemmas: role alternation -/

theorem altRoles_head {u : Bool} {m : Message} {l : List Message}
    (h : altRoles u (m :: l) = true) : m.role = roleOf u := by
  simp only [altRoles, Bool.and_eq_true, beq_iff_eq] at h
  exact h.1

theorem altRoles_tail {u : Bool} {m : Message} {l : List Message}
    (h : altRoles u (m :: l) = true) : altRoles (!u) l = true := by
  simp only [altRoles, Bool.and_eq_true] at h
  exact h.2

theorem altRoles_drop2 {u : Bool} {x y : Message} {l : List Message}
    (h : altRoles u (x :: y :: l) = true) : altRoles u l = true := by
  have h2 := altRoles_tail (altRoles_tail h)
  simpa using h2

theorem nextAfter_cons (u : Bool) (m : Message) (l : List Message) :
    nextAfter u (m :: l) = nextAfter (!u) l := rfl

theorem nextAfter_append_singleton : ∀ (l : List Message) (u : Bool) (m : Message),
    nextAfter u (l ++ [m]) = !(nextAfter u l)
  | [], _, _ => rfl
  | x :: l, u, m => by
      simp only [List.cons_append, nextAfter_cons]
      exact nextAfter_append_singleton l (!u) m

theorem nextAfter_drop2 (u : Bool) (x y : Message) (l : List Message) :
    nextAfter u (x :: y :: l) = nextAfter u l := by
  simp [nextAfter_cons]

theorem altRoles_append_singleton : ∀ (l : List Message) (u : Bool) (m : Message),
    altRoles u l = true → m.role = roleOf (nextAfter u l) →
    altRoles u (l ++ [m]) = true
  | [], u, m, _, hm => by
      simp only [List.nil_append, altRoles, Bool.and_eq_true, beq_iff_eq]
      exact ⟨hm, trivial⟩
  | x :: l, u, m, h, hm => by
      have h1 := altRoles_head h
      have h3 := altRoles_append_singleton l (!u) m (altRoles_tail h) hm
      simp only [List.cons_append, altRoles, Bool.and_eq_true, beq_iff_eq]
      exact ⟨h1, h3⟩

/-! ## Lemmas: the alternating-traffic invariant -/

theorem goodState_add (b : ClaudeConversationBuffer) (next : Bool) (s : String)
    (hb : GoodState b next) : GoodState (b.add_message (roleOf next) s) (!next) := by
  obtain ⟨hmax, hinj, conv, hmsg, halt, hlen, hnext⟩ := hb
  have hcl : CLAUDE_EXAMPLES.length = 2 := rfl
  have haltc : altRoles true (conv ++ [Message.mk (roleOf next) (Content.str s)]) = true := by
    apply altRoles_append_singleton conv true _ halt
    rw [← hnext]
  have hnext2 : nextAfter true (conv ++ [Message.mk (roleOf next) (Content.str s)]) = !next := by
    rw [nextAfter_append_singleton, ← hnext]
  have hmsgs2 : b.messages ++ [Message.mk (roleOf next) (Content.str s)] =
      CLAUDE_EXAMPLES ++ (conv ++ [Message.mk (roleOf next) (Content.str s)]) := by
    rw [hmsg, List.append_assoc]
  refine ⟨hmax, hinj, ?_⟩
  show ∃ conv2, trimCore b.max_messages b.examples_injected
      (b.messages ++ [Message.mk (roleOf next) (Content.str s)]) =
      CLAUDE_EXAMPLES ++ conv2 ∧ _
  rw [hmsgs2, hinj, hmax]
  set newm : Message := Message.mk (roleOf next) (Content.str s) with hnewm
  by_cases hsmall : conv.length + 1 ≤ 18
  · refine ⟨conv ++ [newm], ?_, haltc, by simpa using hsmall, hnext2.symm⟩
    unfold trimCore
    rw [if_neg (by simp [hcl]; omega)]
  · have hconv18 : conv.length = 18 := by omega
    match conv, hconv18 with
    | m0 :: m1 :: crest, hconv18 =>
    simp only [List.cons_append] at haltc hnext2 ⊢
    have hlen21 : (CLAUDE_EXAMPLES ++ (m0 :: m1 :: (crest ++ [newm]))).length = 21 := by
      simp only [List.length_append, List.length_cons, List.length_nil] at hconv18 ⊢
      rw [hcl]
      omega
    have hslice : pySliceFrom (CLAUDE_EXAMPLES ++ (m0 :: m1 :: (crest ++ [newm])))
        (-(((20 : Nat) : Int) - 2)) = m1 :: (crest ++ [newm]) := by
      rw [pySliceFrom_neg _ _ (by omega), hlen21]
      have harg : 21 - (- -(((20 : Nat) : Int) - 2)).toNat = CLAUDE_EXAMPLES.length + 1 := by
        rw [hcl]
        omega
      rw [harg, List.drop_append]
      rfl
    have hm1role : m1.role = "assistant" := altRoles_head (altRoles_tail haltc)
    have hkept2 : (CLAUDE_EXAMPLES ++ (m1 :: (crest ++ [newm])))[2]? = some m1 := by
      rw [List.getElem?_append_right (by omega), hcl]
      simp
    refine ⟨crest ++ [newm], ?_, altRoles_drop2 haltc, ?_, ?_⟩
    · unfold trimCore
      rw [if_pos (by rw [hlen21]; omega), if_pos rfl]
      rw [← hcl, List.take_left, hslice]
      rw [roleCheck_of_not_user hkept2 (by rw [hm1role]; decide)]
      rw [← hcl, List.take_left]
      rw [show (3:Nat) = CLAUDE_EXAMPLES.length + 1 by rw [hcl]]
      rw [List.drop_append]
      rfl
    · simp only [List.length_append, List.length_cons, List.length_nil] at hconv18 ⊢
      omega
    · rw [← hnext2, nextAfter_drop2]

theorem goodState_addTurns :
    ∀ (turns : List (String × String)) (b : ClaudeConversationBuffer) (next : Bool),
      GoodState b next → TurnsAlt next turns = true →
      ∃ next2, GoodState (addTurns b turns) next2
  | [], _, next, hb, _ => ⟨next, hb⟩
  | (r, c) :: turns, b, next, hb, ht => by
      simp only [TurnsAlt, Bool.and_eq_true, beq_iff_eq] at ht
      obtain ⟨hr, ht2⟩ := ht
      subst hr
      exact goodState_addTurns turns _ (!next) (goodState_add b next c hb) ht2

/-! ## Claim C2 -/

/-- C2 counterexample: after injecting examples, a single `add_message` with an
assistant turn leaves an assistant message at position 2 (no trim runs below
capacity), refuting "after every call ... buffer[2] (if present) has role
user". -/
theorem alternation_counterexample :
    (newClaudeBuffer.inject_examples.add_message "assistant" "ok").examples_injected = true ∧
    ((newClaudeBuffer.inject_examples.add_message "assistant" "ok").messages[2]?).map
        Message.role = some "assistant" := by
  exact ⟨rfl, rfl⟩

/-- C2 (amended): for any sequence of `add_message` calls whose roles alternate
user, assistant, user, ... starting with user — the traffic the request
pipeline produces — after every call on a freshly injected default buffer,
positions 0 and 1 are exactly the priming pair and the position-2 entry (if
present) has role user.  (Quantifying over all alternating turn lists covers
"after every call": every prefix of such a list is such a list.) -/
theorem alternation_invariant (turns : List (String × String))
    (halt : TurnsAlt true turns = true) :
    (addTurns newClaudeBuffer.inject_examples turns).messages.take 2 = CLAUDE_EXAMPLES ∧
    ∀ m, (addTurns newClaudeBuffer.inject_examples turns).messages[2]? = some m →
      m.role = "user" := by
  have hcl : CLAUDE_EXAMPLES.length = 2 := rfl
  have h0 : GoodState newClaudeBuffer.inject_examples true := by
    refine ⟨rfl, rfl, [], by simp [newClaudeBuffer, ClaudeConversationBuffer.inject_examples],
      rfl, by simp, rfl⟩
  obtain ⟨next2, hg⟩ := goodState_addTurns turns _ true h0 halt
  obtain ⟨-, -, conv, hmsg, halt2, -, -⟩ := hg
  constructor
  · rw [hmsg, ← hcl, List.take_left]
  · intro m hm
    rw [hmsg, List.getElem?_append_right (by omega), hcl] at hm
    match conv, hm, halt2 with
    | m0 :: crest, hm, halt2 =>
      have : m0 = m := by simpa using hm
      subst this
      exact altRoles_head halt2

/-- Witness for C2 at a concrete alternating two-turn exchange. -/
theorem alternation_invariant_witness :
    TurnsAlt true [("user", "q1"), ("assistant", "r1")] = true ∧
    ((addTurns newClaudeBuffer.inject_examples
        [("user", "q1"), ("assistant", "r1")]).messages.take 2 = CLAUDE_EXAMPLES ∧
      ∀ m, (addTurns newClaudeBuffer.inject_examples
          [("user", "q1"), ("assistant", "r1")]).messages[2]? = some m →
        m.role = "user") :=
  ⟨by decide, alternation_invariant _ (by decide)⟩

/-! ## Lemmas: export-time cache marking -/

theorem markLast_append : ∀ (l : List Message) (x : Message),
    markLast (l ++ [x]) = l ++ [Message.mk x.role (wrapCache x.content)]
  | [], _ => rfl
  | [m], x => rfl
  | m :: m2 :: l, x => by
      show Message.mk m.role m.content :: markLast (m2 :: (l ++ [x])) = _
      rw [show m2 :: (l ++ [x]) = (m2 :: l) ++ [x] from rfl,
        markLast_append (m2 :: l) x]
      rfl

theorem hasMarker_of_plain : ∀ {m : Message}, isPlainText m = true → hasMarker m = false
  | ⟨_, Content.str _⟩, _ => rfl
  | ⟨_, Content.blocks _⟩, h => by simp [isPlainText] at h

theorem countP_hasMarker_eq_zero : ∀ (l : List Message),
    (∀ m ∈ l, isPlainText m = true) → l.countP hasMarker = 0
  | [], _ => rfl
  | m :: l, h => by
      rw [List.countP_cons, hasMarker_of_plain (h m (List.mem_cons_self m l)),
        countP_hasMarker_eq_zero l (fun x hx => h x (List.mem_cons_of_mem m hx))]
      simp

/-! ## Claim C4 -/

/-- C4 counterexample: a buffer with examples injected and 6 (> 5) stored
messages exports a sequence with **two** cache-marked messages (the stored
priming message and the synthesized boundary), not exactly one. -/
theorem cache_boundary_counterexample :
    (addTurns newClaudeBuffer.inject_examples
        [("user", "u1"), ("assistant", "a1"), ("user", "u2"),
         ("assistant", "a2")]).examples_injected = true ∧
    (addTurns newClaudeBuffer.inject_examples
        [("user", "u1"), ("assistant", "a1"), ("user", "u2"),
         ("assistant", "a2")]).messages.length = 6 ∧
    ((addTurns newClaudeBuffer.inject_examples
        [("user", "u1"), ("assistant", "a1"), ("user", "u2"),
         ("assistant", "a2")]).get_messages_for_api.countP hasMarker) = 2 := by
  refine ⟨rfl, rfl, ?_⟩
  decide

/-- C4 (amended): for a buffer with examples injected whose stored list is the
priming pair followed by a plain-text conversation with more than 3 entries
(total > 5), the export keeps every message except the 4th-from-last stored
message, whose content is wrapped with the cache marker; that boundary message
is the only marked message outside the priming pair, and the whole export
carries exactly two marked messages (the stored priming message being the
other). -/
theorem cache_boundary (b : ClaudeConversationBuffer) (pre : List Message)
    (mid : Message) (rec3 : List Message)
    (hinj : b.examples_injected = true)
    (hmsg : b.messages = CLAUDE_EXAMPLES ++ pre ++ [mid] ++ rec3)
    (hrec : rec3.length = 3)
    (hpre : ∀ m ∈ pre, isPlainText m = true)
    (_hmid : isPlainText mid = true)
    (hrecp : ∀ m ∈ rec3, isPlainText m = true) :
    b.get_messages_for_api =
      CLAUDE_EXAMPLES ++ pre ++ [Message.mk mid.role (wrapCache mid.content)] ++ rec3 ∧
    b.get_messages_for_api.countP hasMarker = 2 ∧
    (pre ++ [Message.mk mid.role (wrapCache mid.content)] ++ rec3).countP hasMarker = 1 := by
  have hcl : CLAUDE_EXAMPLES.length = 2 := rfl
  have hmsg2 : b.messages = CLAUDE_EXAMPLES ++ ((pre ++ [mid]) ++ rec3) := by
    rw [hmsg]
    simp [List.append_assoc]
  have hlen : b.messages.length = pre.length + 6 := by
    rw [hmsg2]
    simp only [List.length_append, List.length_cons, List.length_nil, hcl, hrec]
    omega
  have hexp : b.get_messages_for_api =
      CLAUDE_EXAMPLES ++ (pre ++ [Message.mk mid.role (wrapCache mid.content)]) ++ rec3 := by
    unfold ClaudeConversationBuffer.get_messages_for_api
    rw [hmsg2, hinj]
    rw [if_neg (show ¬ (CLAUDE_EXAMPLES ++ ((pre ++ [mid]) ++ rec3)).length ≤ 3 by
      rw [← hmsg2]; omega)]
    rw [if_pos rfl]
    simp only []
    have hd2 : (CLAUDE_EXAMPLES ++ ((pre ++ [mid]) ++ rec3)).drop 2 = (pre ++ [mid]) ++ rec3 := by
      rw [← hcl, List.drop_left]
    have ht2 : (CLAUDE_EXAMPLES ++ ((pre ++ [mid]) ++ rec3)).take 2 = CLAUDE_EXAMPLES := by
      rw [← hcl, List.take_left]
    have hclen : ((pre ++ [mid]) ++ rec3).length = pre.length + 4 := by
      simp only [List.length_append, List.length_cons, List.length_nil, hrec]
    rw [hd2, ht2, hclen]
    rw [if_neg (by omega)]
    have htk : pre.length + 4 - 3 = (pre ++ [mid]).length := by
      simp only [List.length_append, List.length_cons, List.length_nil]
      omega
    rw [htk, List.take_left, List.drop_left, markLast_append]
  have hpre1 : (pre ++ [Message.mk mid.role (wrapCache mid.content)] ++ rec3).countP
      hasMarker = 1 := by
    rw [List.countP_append, List.countP_append,
      countP_hasMarker_eq_zero pre hpre, countP_hasMarker_eq_zero rec3 hrecp]
    rfl
  refine ⟨by rw [hexp]; simp [List.append_assoc], ?_, hpre1⟩
  rw [hexp, List.countP_append, List.countP_append,
    countP_hasMarker_eq_zero rec3 hrecp, List.countP_append,
    countP_hasMarker_eq_zero pre hpre]
  rfl

/-- Witness for C4 at a concrete 6-message buffer. -/
theorem cache_boundary_witness :
    (ClaudeConversationBuffer.mk
        (CLAUDE_EXAMPLES ++ [] ++ [Message.mk "user" (Content.str "w1")] ++
          [Message.mk "assistant" (Content.str "w2"),
           Message.mk "user" (Content.str "w3"),
           Message.mk "assistant" (Content.str "w4")]) 20 true).get_messages_for_api =
      CLAUDE_EXAMPLES ++ [] ++
        [Message.mk "user" (wrapCache (Content.str "w1"))] ++
        [Message.mk "assistant" (Content.str "w2"),
         Message.mk "user" (Content.str "w3"),
         Message.mk "assistant" (Content.str "w4")] ∧
    (ClaudeConversationBuffer.mk
        (CLAUDE_EXAMPLES ++ [] ++ [Message.mk "user" (Content.str "w1")] ++
          [Message.mk "assistant" (Content.str "w2"),
           Message.mk "user" (Content.str "w3"),
           Message.mk "assistant" (Content.str "w4")]) 20 true).get_messages_for_api.countP
      hasMarker = 2 :=
  ⟨((cache_boundary _ [] (Message.mk "user" (Content.str "w1"))
      [Message.mk "assistant" (Content.str "w2"),
       Message.mk "user" (Content.str "w3"),
       Message.mk "assistant" (Content.str "w4")]
      rfl rfl rfl (by simp) rfl (by decide)).1),
   ((cache_boundary _ [] (Message.mk "user" (Content.str "w1"))
      [Message.mk "assistant" (Content.str "w2"),
       Message.mk "user" (Content.str "w3"),
       Message.mk "assistant" (Content.str "w4")]
      rfl rfl rfl (by simp) rfl (by decide)).2.1)⟩

/-! ## Lemmas: payload normalization -/

theorem remove_old_content_type (parsed : ParsedPayload) :
    (remove_old_content parsed).type? = parsed.type? := by
  unfold remove_old_content
  split
  · rfl
  · rfl

theorem handleDecodedPayload_type (parsed : ParsedPayload) :
    (handleDecodedPayload parsed).type = parsed.type?.getD "code_generation" := by
  unfold handleDecodedPayload
  simp only []
  split
  · rename_i heq _
    rw [remove_old_content_type] at heq
    show (remove_old_content parsed).type?.getD "code_generation" = _
    rw [remove_old_content_type, heq]
  · simp [remove_old_content_type]

/-! ## Claim C5 -/

/-- C5 counterexample: a decoded payload with the unknown type `"diagram"` is
not defaulted — `parsed.get('type', 'code_generation')` returns the present
value, so the returned response's type is `"diagram"`, not `code_generation`. -/
theorem unknown_type_passes_through :
    (handleDecodedPayload (ParsedPayload.mk (some "diagram") none)).type = "diagram" ∧
    (handleDecodedPayload (ParsedPayload.mk (some "diagram") none)).is_code_change = false := by
  exact ⟨rfl, rfl⟩

/-- C5 (amended): only a *missing* `type` field is defaulted to
`code_generation`; a present but unknown `type` value is passed through
verbatim as the response's type.  In both cases the decode-success path is a
total function of the payload — no hard failure is raised for the turn. -/
theorem response_type_defaulting (parsed : ParsedPayload) :
    (parsed.type? = none → (handleDecodedPayload parsed).type = "code_generation") ∧
    (∀ t, parsed.type? = some t → (handleDecodedPayload parsed).type = t) := by
  constructor
  · intro h
    rw [handleDecodedPayload_type, h]
    rfl
  · intro t h
    rw [handleDecodedPayload_type, h]
    rfl

/-- Witness for C5: the defaulting at concrete payloads. -/
theorem response_type_defaulting_witness :
    (handleDecodedPayload (ParsedPayload.mk none none)).type = "code_generation" ∧
    (handleDecodedPayload (ParsedPayload.mk (some "code_changes") none)).type = "code_changes" :=
  ⟨(response_type_defaulting (ParsedPayload.mk none none)).1 rfl,
   (response_type_defaulting (ParsedPayload.mk (some "code_changes") none)).2
     "code_changes" rfl⟩

/-! ## Claim C6 -/

/-- C6 counterexample: the OpenAI provider's `cached_tokens` figure is *not*
mapped into `cache_read_input_tokens` (which stays 0); it is surfaced in the
separate fifth field `cached_tokens` of the unified record. -/
theorem cached_tokens_not_mapped_to_cache_read :
    (normalizeUsage "openai"
        { prompt_tokens := some 10, completion_tokens := some 5,
          cached_tokens := some 7 }).cache_read_input_tokens = 0 ∧
    (normalizeUsage "openai"
        { prompt_tokens := some 10, completion_tokens := some 5,
          cached_tokens := some 7 }).cached_tokens = 7 := by
  exact ⟨rfl, rfl⟩

/-- C6 (amended): every completed call's usage record is normalized to the
five-field shape `{input_tokens, output_tokens, cache_creation_input_tokens,
cache_read_input_tokens, cached_tokens}` with unreported fields defaulting to
0: the Claude branch fills the two cache fields and zeroes `cached_tokens`,
while the OpenAI branch keeps its single `cached_tokens` figure in the
dedicated `cached_tokens` field, with both Claude-style cache fields left 0. -/
theorem usage_normalization (u : RawUsage) :
    normalizeUsage "claude" u =
      { input_tokens := u.input_tokens.getD 0, output_tokens := u.output_tokens.getD 0,
        cache_creation_input_tokens := u.cache_creation_input_tokens.getD 0,
        cache_read_input_tokens := u.cache_read_input_tokens.getD 0,
        cached_tokens := 0 } ∧
    normalizeUsage "openai" u =
      { input_tokens := u.prompt_tokens.getD 0, output_tokens := u.completion_tokens.getD 0,
        cache_creation_input_tokens := 0, cache_read_input_tokens := 0,
        cached_tokens := u.cached_tokens.getD 0 } ∧
    (u.cached_tokens = none → (normalizeUsage "openai" u).cached_tokens = 0) ∧
    (u.cache_read_input_tokens = none →
      (normalizeUsage "claude" u).cache_read_input_tokens = 0) := by
  refine ⟨rfl, rfl, ?_, ?_⟩
  · intro h
    show u.cached_tokens.getD 0 = 0
    rw [h]
    rfl
  · intro h
    show u.cache_read_input_tokens.getD 0 = 0
    rw [h]
    rfl

/-- Witness for C6 at a concrete raw usage dict. -/
theorem usage_normalization_witness :
    (normalizeUsage "openai" (RawUsage.mk none none none none (some 11) (some 4) none)).cached_tokens = 0 ∧
    (normalizeUsage "claude" (RawUsage.mk (some 9) (some 3) (some 1) none none none none)).cache_read_input_tokens = 0 :=
  ⟨(usage_normalization (RawUsage.mk none none none none (some 11) (some 4) none)).2.2.1 rfl,
   (usage_normalization (RawUsage.mk (some 9) (some 3) (some 1) none none none none)).2.2.2 rfl⟩

/-! ## Claim C7 -/

/-- C7: if the remote provider call fails, only the single gateway error
`"API Error: ..."` is surfaced for the turn, and the conversation buffer is
left exactly as it was just before the failed call — the examples (if newly
injected) and this turn's user message are in the buffer, and no assistant
message is appended. -/
theorem gateway_failure_preserves_buffer (buf : ClaudeConversationBuffer)
    (currentMessage : String) (e : String) :
    (processTurn buf currentMessage (Except.error e)).1 =
      (if !buf.examples_injected then buf.inject_examples else buf).add_message
        "user" currentMessage ∧
    (processTurn buf currentMessage (Except.error e)).2 =
      Except.error ("API Error: " ++ e) :=
  ⟨rfl, rfl⟩

end CodegenBackend
